import Mathlib

/-!
Shallow embedding of the core of `sleep_tracker.py` (ransona/sleep_tracker):
the per-setup device coordinator `CameraSetup`, its recording pipeline, the
lock-state retry dispatcher, the telemetry parser, and the experiment-identity
allocator.  External effects (camera, serial port, filesystem, wall clock) are
passed in explicitly as data; wall-clock instants are modelled as exact
rationals; fallible external writes are modelled with `Except`.
-/

namespace SleepTracker

/-! ### Python string primitives

`str.split(";")` and `str.strip()` are modelled character by character so that
they agree with Python's semantics (`"".split(";") == [""]`, stripping ASCII
whitespace from both ends). -/

/-- The characters removed by Python's `str.strip()` (ASCII whitespace). -/
def pyIsSpace (c : Char) : Bool :=
  c = ' ' || c = '\t' || c = '\n' || c = '\r' || c = '\x0b' || c = '\x0c'

/-- Python `str.strip()` on a character list: drop whitespace from both
ends. -/
def pyStrip (cs : List Char) : List Char :=
  ((cs.dropWhile pyIsSpace).reverse.dropWhile pyIsSpace).reverse

/-- Python `s.split(";")` on a character list: always returns one part more
than the number of separators; splitting the empty string gives `[[]]`. -/
def splitSemi : List Char → List (List Char)
  | [] => [[]]
  | c :: cs =>
    match splitSemi cs with
    | [] => [[c]]
    | p :: ps => if c = ';' then [] :: p :: ps else (c :: p) :: ps

/-- `[part.strip() for part in line.split(";")]`. -/
def splitStripSemi (line : String) : List String :=
  (splitSemi line.data).map fun cs => String.mk (pyStrip cs)

/-- Python `str.strip()` on a `String`. -/
def pyStripStr (s : String) : String := String.mk (pyStrip s.data)

/-! ### TelemetryParser — `CameraSetup.parse_arduino_status` -/

/-- `CameraSetup.parse_arduino_status`: split the line on `";"`, strip each
field; exactly three fields yield `(brake_text, wheel_pos, mode)` where `"0"`
maps to `"locked"`, `"1"` to `"unlocked"` and anything else passes through;
any other field count yields no status (`None`). -/
def parseArduinoStatus (line : String) : Option (String × String × String) :=
  let parts := splitStripSemi line
  match parts with
  | [brakeRaw, wheelPos, mode] =>
      let brakeText :=
        if brakeRaw = "0" then "locked"
        else if brakeRaw = "1" then "unlocked"
        else brakeRaw
      some (brakeText, wheelPos, mode)
  | _ => none

/-! ### LockStateController — `CameraSetup.send_lock_state` -/

/-- The `command_map` dictionary of `send_lock_state` (`dict.get` semantics:
an unknown key yields `None`). -/
def commandMap (lockState : String) : Option Char :=
  if lockState = "automatic" then some 'a'
  else if lockState = "locked" then some 'b'
  else if lockState = "unlocked" then some 'c'
  else none

/-- Observable outcome of the `_send` retry loop of `send_lock_state`. -/
structure SendOutcome where
  /-- 1-based index of the attempt whose serial write succeeded, if any. -/
  sentOnAttempt : Option Nat
  /-- Number of `"Serial write failed: ..."` warnings logged (one per failed
  attempt). -/
  failWarnings : Nat
  /-- Number of `time.sleep(0.1)` backoffs performed (one per failed
  attempt). -/
  backoffs : Nat
  /-- Whether `"Giving up after 3 send attempts."` was logged. -/
  gaveUp : Bool
  deriving Repr, DecidableEq

/-- The backoff slept after each failed attempt, in seconds
(`time.sleep(0.1)`). -/
def backoffSeconds : ℚ := 1 / 10

/-- The `while attempts < 3` loop of `_send`, written as structural recursion
on the number of attempts still allowed (`3 - attempts`); `attempt` is the
1-based index of the attempt about to run, and `ok i` tells whether the serial
write of attempt `i` succeeds or raises.  Every exception is caught inside the
loop, so the loop always returns normally; each failed attempt logs one
warning and sleeps one backoff. -/
def sendGo (ok : Nat → Bool) (attempt : Nat) : Nat → SendOutcome
  | 0 =>
    { sentOnAttempt := none, failWarnings := 0, backoffs := 0, gaveUp := true }
  | remaining + 1 =>
    if ok attempt then
      { sentOnAttempt := some attempt, failWarnings := 0, backoffs := 0,
        gaveUp := false }
    else
      let r := sendGo ok (attempt + 1) remaining
      { r with failWarnings := r.failWarnings + 1, backoffs := r.backoffs + 1 }

/-- `send_lock_state` body: look up the command byte; an unknown state returns
silently before any send is attempted, otherwise the retry loop runs with 3
total attempts. -/
def sendLockState (lockState : String) (ok : Nat → Bool) :
    Option (Char × SendOutcome) :=
  match commandMap lockState with
  | none => none
  | some c => some (c, sendGo ok 1 3)

/-! ### `CameraSetup` state and the recording pipeline

Frames are kept abstract (`F`), with the two `cv2.flip` transforms passed in
as functions.  The video sink records the list of frames written to it; the
event sink records its header row and the `(timestamp, arduino_data)` data
rows.  Wall-clock instants (`time.time()`) are supplied as rational inputs. -/

/-- The `cv2.VideoWriter` sink: frames written so far, and whether `release`
has been called. -/
structure VideoWriter (F : Type) where
  frames : List F
  isOpen : Bool
  deriving DecidableEq

/-- The frame-times CSV sink: the header row written by `start_recording`,
the data rows written by `read_frame`, and whether the file is open. -/
structure CsvSink where
  headerRow : List String
  rows : List (ℚ × String)
  isOpen : Bool
  deriving DecidableEq

/-- The fields of `CameraSetup` that the recording pipeline, telemetry drain
and lock-state logic read or write (`CameraSetup.__init__` lines 112–125).
`writer`/`csv` are `none` until `start_recording` opens them. -/
structure CamState (F : Type) where
  flipHorizontal : Bool
  flipVertical : Bool
  recording : Bool
  startTime : ℚ
  writer : Option (VideoWriter F)
  csv : Option CsvSink
  elapsedTime : ℤ
  mouseId : String
  sessionDuration : ℤ
  expId : String
  lockState : String
  latestStatus : Option (String × String × String)
  lastArduinoLine : String
  deriving DecidableEq

/-- The state set up by the tail of `CameraSetup.__init__`. -/
def initState (F : Type) (flipHorizontal flipVertical : Bool) : CamState F :=
  { flipHorizontal := flipHorizontal
    flipVertical := flipVertical
    recording := false
    writer := none
    csv := none
    startTime := 0
    elapsedTime := 0
    mouseId := ""
    sessionDuration := 0
    expId := ""
    lockState := "automatic"
    latestStatus := none
    lastArduinoLine := "" }

/-- Python `int(q)` (truncation toward zero). -/
def pyInt (q : ℚ) : ℤ := if 0 ≤ q then ⌊q⌋ else -⌊-q⌋

/-- `CameraSetup.start_recording`: record the session parameters, take the
start instant, open a fresh video sink, open a fresh CSV sink and write its
header row `['timestamp', 'arduino_data']`, then set `recording`.  (The
metadata side file and the on-disk paths are out of scope here.) -/
def startRecording {F : Type} (s : CamState F) (mouseId : String)
    (sessionDuration : ℤ) (now : ℚ) : CamState F :=
  { s with
    mouseId := mouseId
    sessionDuration := sessionDuration
    startTime := now
    writer := some { frames := [], isOpen := true }
    csv := some { headerRow := ["timestamp", "arduino_data"], rows := [],
                  isOpen := true }
    recording := true }

/-- `CameraSetup.stop_recording`: clear the recording flag; if a video writer
exists, release it; if a CSV file exists, close it.  (`VideoWriter.release`
and `file.close` are idempotent on already-closed sinks.) -/
def stopRecording {F : Type} (s : CamState F) : CamState F :=
  { s with
    recording := false
    writer := s.writer.map fun w => { w with isOpen := false }
    csv := s.csv.map fun c => { c with isOpen := false } }

/-- The serial drain loop of `read_frame`: `arduino_data = ""`, then
`while self.serial.in_waiting: arduino_data = readline().decode().strip()` —
each buffered line overwrites the previous one, so the result is the stripped
last pending line, or `""` when nothing was pending. -/
def drainSerial (pending : List String) : String :=
  pending.foldl (fun _ line => pyStripStr line) ""

/-- The telemetry update of `read_frame`: only a non-empty drained line
updates `latest_status` and `last_arduino_line`. -/
def updateTelemetry {F : Type} (s : CamState F) (arduinoData : String) :
    CamState F :=
  if arduinoData ≠ "" then
    { s with latestStatus := parseArduinoStatus arduinoData
             lastArduinoLine := arduinoData }
  else s

/-- The flip transforms of `apply_flips`, horizontal first, each applied only
when its flag is set; `hf`/`vf` stand for `cv2.flip(·, 1)`/`cv2.flip(·, 0)`. -/
def applyFlips {F : Type} (s : CamState F) (hf vf : F → F) (frame : F) : F :=
  let f := if s.flipHorizontal then hf frame else frame
  if s.flipVertical then vf f else f

/-- The recording block of `read_frame` (lines 179–182) with the two external
writes allowed to fail: `writer.write(frame)` raises when `videoOk` is false,
`csv_writer.writerow([timestamp, arduino_data])` raises when `csvOk` is
false.  A raise propagates out with the state as mutated so far
(`Except.error`). -/
def pipelineAppend {F : Type} (s : CamState F) (frame : F) (timestamp : ℚ)
    (arduinoData : String) (videoOk csvOk : Bool) :
    Except (CamState F) (CamState F) :=
  if videoOk = false then
    .error s
  else
    let s1 := { s with
      writer := s.writer.map fun w => { w with frames := w.frames ++ [frame] } }
    if csvOk = false then
      .error s1
    else
      .ok { s1 with
        csv := s1.csv.map fun c =>
          { c with rows := c.rows ++ [(timestamp, arduinoData)] }
        elapsedTime := pyInt timestamp }

/-- Whether either sink of a setup is still open. -/
def hasOpenSink {F : Type} (s : CamState F) : Bool :=
  (match s.writer with | some w => w.isOpen | none => false) ||
  (match s.csv with | some c => c.isOpen | none => false)

/-- The state in which an append leaves the setup, whether it raised or
returned normally. -/
def appendResultState {F : Type} :
    Except (CamState F) (CamState F) → CamState F
  | .error s => s
  | .ok s => s

/-- Whether an append raised. -/
def appendRaised {F : Type} : Except (CamState F) (CamState F) → Bool
  | .error _ => true
  | .ok _ => false

/-- `CameraSetup.read_frame` on the path where no external write fails:
drain the serial buffer, update telemetry from a non-empty drained line; if
the capture yielded a frame, apply the flips, and when recording write the
frame and the `(elapsed, arduino_data)` row; return the (possibly
transformed) frame or nothing. -/
def readFrame {F : Type} (hf vf : F → F) (s : CamState F) (now : ℚ)
    (pending : List String) (captured : Option F) :
    CamState F × Option F :=
  let arduinoData := drainSerial pending
  let s1 := updateTelemetry s arduinoData
  match captured with
  | some frame =>
      let frame1 := applyFlips s1 hf vf frame
      if s1.recording then
        let timestamp := now - s1.startTime
        match pipelineAppend s1 frame1 timestamp arduinoData true true with
        | .ok s2 => (s2, some frame1)
        | .error s2 => (s2, some frame1)
      else (s1, some frame1)
  | none => (s1, none)

/-- One tick handed to `read_frame`: the wall-clock instant, the telemetry
lines pending on the serial buffer, and the captured frame. -/
structure Tick (F : Type) where
  now : ℚ
  pending : List String
  frame : F

/-- Run `read_frame` over a sequence of ticks that each capture a frame. -/
def runTicks {F : Type} (hf vf : F → F) (s : CamState F)
    (ticks : List (Tick F)) : CamState F :=
  ticks.foldl (fun st t => (readFrame hf vf st t.now t.pending (some t.frame)).1) s

/-! ### ExperimentIdentity — `create_exp_id` and
`App.generate_and_register_exp`

The shared repository is modelled as the list of experiment directories that
exist under the animal directory (`os.path.exists` is membership,
`os.makedirs` appends).  The repository root and the animal directory are
created unconditionally by the source before the probe loop and are not
tracked. -/

/-- Python `f"{n:02d}"`: zero-pad to two digits (numbers of three or more
digits are rendered unpadded). -/
def pad2 (n : Nat) : String := if n < 10 then "0" ++ toString n else toString n

/-- `mouse_id if mouse_id else "unknown"` (also `mouse_id or "unknown"`). -/
def safeMouseId (mouseId : String) : String :=
  if mouseId = "" then "unknown" else mouseId

/-- `possible_exp_id = f"{current_date}_{base_exp_number_str}_{safe_mouse_id}"`. -/
def expIdName (date : String) (n : Nat) (subject : String) : String :=
  date ++ "_" ++ pad2 n ++ "_" ++ subject

/-- `candidate_dir = os.path.join(animal_dir, possible_exp_id)`, relative to
the repository root. -/
def candidateDir (date : String) (n : Nat) (subject : String) : String :=
  subject ++ "/" ++ expIdName date n subject

/-- The probe loop of `create_exp_id`, written as structural recursion on a
fuel bound; `n` is the sequence number about to be probed.  The Python loop
is unbounded, but `fs.length + 1` probes always suffice to leave the finite
set of existing directories, so `createExpId` passes that fuel. -/
def createExpIdAux (fs : List String) (date subject : String) :
    Nat → Nat → Option (String × String × List String)
  | _, 0 => none
  | n, fuel + 1 =>
    let name := expIdName date n subject
    let dir := candidateDir date n subject
    if dir ∈ fs then createExpIdAux fs date subject (n + 1) fuel
    else some (name, dir, fs ++ [dir])

/-- `create_exp_id(mouse_id, remote_repo)`: starting from sequence 1, claim
the first `{date}_{seq}_{subject}` whose directory does not yet exist, create
it, and return the identifier, the directory and the updated filesystem. -/
def createExpId (fs : List String) (date mouseId : String) :
    Option (String × String × List String) :=
  createExpIdAux fs date (safeMouseId mouseId) 1 (fs.length + 1)

/-- `App.generate_and_register_exp`: the allocation outcome (`create_exp_id`
either raises or returns `(exp_id, remote_dir)`) and the registry-append
outcome are passed in as data.  Returns the experiment id, the remote
directory if any, and the log lines (level, message) emitted; a failed
allocation degrades to the fallback id `{today}_01_{mouse_id or "unknown"}`
with a warning. -/
def generateAndRegisterExp (rootDir today mouseId : String)
    (alloc : Except String (String × String))
    (appendOutcome : Except String Unit) :
    String × Option String × List (String × String) :=
  let finish := fun (expId : String) (remoteDir : Option String)
      (logs : List (String × String)) =>
    let localDir := rootDir ++ "/" ++ safeMouseId mouseId ++ "/" ++ expId
    let logs := logs ++
      [("INFO", "Using expID " ++ expId ++ ". Local path: " ++ localDir)]
    let logs := match remoteDir with
      | some d => logs ++ [("INFO", "Remote experiment directory: " ++ d)]
      | none => logs
    (expId, remoteDir, logs)
  match alloc with
  | .error e =>
      let expId := today ++ "_01_" ++ safeMouseId mouseId
      finish expId none
        [("WARNING", "Failed to create remote expID directory: " ++ e)]
  | .ok (expId, remoteDir) =>
      let warn := match appendOutcome with
        | .ok _ => []
        | .error e =>
          [("WARNING",
            "Failed to append experiment list for " ++ expId ++ ": " ++ e)]
      finish expId (some remoteDir) warn

/-! ### `App.toggle_lock_state` -/

/-- The state transition performed by `App.toggle_lock_state` on
`setup.lock_state`. -/
def toggleLockState (st : String) : String :=
  if st = "automatic" then "unlocked"
  else if st = "unlocked" then "locked"
  else "automatic"

/-! ## Helper lemmas -/

/-- String append is associative (via the underlying character lists). -/
lemma string_append_assoc (a b c : String) : a ++ b ++ c = a ++ (b ++ c) := by
  cases a; cases b; cases c
  show String.mk _ = String.mk _
  simp [String.append, List.append_assoc]

/-- A fold that overwrites its accumulator with each element returns the
stripped last element, or the initial accumulator on an empty list. -/
lemma foldl_overwrite_eq_getLast (xs : List String) : ∀ acc : String,
    xs.foldl (fun _ line => pyStripStr line) acc =
      ((xs.getLast?).map pyStripStr).getD acc := by
  induction xs with
  | nil => intro acc; rfl
  | cons x xs ih =>
    intro acc
    rw [List.foldl_cons, ih]
    cases xs with
    | nil => rfl
    | cons y ys =>
      rcases h : (y :: ys).getLast? with _ | l
      · simp [List.getLast?_eq_none_iff] at h
      · simp [List.getLast?_cons_cons, h]

/-- `drainSerial` keeps only the stripped last pending line ("latest wins"). -/
lemma drainSerial_eq_getLast (pending : List String) :
    drainSerial pending = ((pending.getLast?).map pyStripStr).getD "" :=
  foldl_overwrite_eq_getLast pending ""

lemma updateTelemetry_eq {F : Type} (s : CamState F) (d : String) :
    updateTelemetry s d =
      { s with
        latestStatus := if d ≠ "" then parseArduinoStatus d else s.latestStatus
        lastArduinoLine := if d ≠ "" then d else s.lastArduinoLine } := by
  unfold updateTelemetry
  split <;> simp_all

@[simp] lemma updateTelemetry_writer {F : Type} (s : CamState F) (d : String) :
    (updateTelemetry s d).writer = s.writer := by
  rw [updateTelemetry_eq]

@[simp] lemma updateTelemetry_csv {F : Type} (s : CamState F) (d : String) :
    (updateTelemetry s d).csv = s.csv := by
  rw [updateTelemetry_eq]

@[simp] lemma updateTelemetry_recording {F : Type} (s : CamState F)
    (d : String) : (updateTelemetry s d).recording = s.recording := by
  rw [updateTelemetry_eq]

@[simp] lemma updateTelemetry_startTime {F : Type} (s : CamState F)
    (d : String) : (updateTelemetry s d).startTime = s.startTime := by
  rw [updateTelemetry_eq]

@[simp] lemma updateTelemetry_flipHorizontal {F : Type} (s : CamState F)
    (d : String) : (updateTelemetry s d).flipHorizontal = s.flipHorizontal := by
  rw [updateTelemetry_eq]

@[simp] lemma updateTelemetry_flipVertical {F : Type} (s : CamState F)
    (d : String) : (updateTelemetry s d).flipVertical = s.flipVertical := by
  rw [updateTelemetry_eq]

/-- `apply_flips` depends only on the flip flags. -/
lemma applyFlips_congr {F : Type} {s s' : CamState F} (hf vf : F → F) (f : F)
    (h1 : s'.flipHorizontal = s.flipHorizontal)
    (h2 : s'.flipVertical = s.flipVertical) :
    applyFlips s' hf vf f = applyFlips s hf vf f := by
  unfold applyFlips
  rw [h1, h2]

@[simp] lemma applyFlips_updateTelemetry {F : Type} (s : CamState F)
    (d : String) (hf vf : F → F) (f : F) :
    applyFlips (updateTelemetry s d) hf vf f = applyFlips s hf vf f :=
  applyFlips_congr hf vf f (updateTelemetry_flipHorizontal s d)
    (updateTelemetry_flipVertical s d)

/-- What one recording `read_frame` call that captures a frame does to the
sinks and to the fields the next call depends on. -/
lemma readFrame_recording_projections {F : Type} (hf vf : F → F)
    (s : CamState F) (now : ℚ) (pending : List String) (f : F)
    (hrec : s.recording = true) :
    ((readFrame hf vf s now pending (some f)).1.writer =
      s.writer.map fun w =>
        { w with frames := w.frames ++ [applyFlips s hf vf f] }) ∧
    ((readFrame hf vf s now pending (some f)).1.csv =
      s.csv.map fun c =>
        { c with rows :=
            c.rows ++ [(now - s.startTime, drainSerial pending)] }) ∧
    (readFrame hf vf s now pending (some f)).1.recording = true ∧
    (readFrame hf vf s now pending (some f)).1.startTime = s.startTime ∧
    (readFrame hf vf s now pending (some f)).1.flipHorizontal =
      s.flipHorizontal ∧
    (readFrame hf vf s now pending (some f)).1.flipVertical =
      s.flipVertical := by
  refine ⟨?_, ?_, ?_, ?_, ?_, ?_⟩ <;>
    simp [readFrame, pipelineAppend, hrec]

/-- Running recording ticks appends, per tick and in order, one transformed
frame to the video sink and one `(elapsed, drained-line)` row to the event
sink, while preserving the recording flag and the start instant. -/
lemma runTicks_sinks {F : Type} (hf vf : F → F) (ticks : List (Tick F)) :
    ∀ s : CamState F, s.recording = true →
      ((runTicks hf vf s ticks).writer =
        s.writer.map fun w =>
          { w with frames := w.frames ++
              ticks.map fun t => applyFlips s hf vf t.frame }) ∧
      ((runTicks hf vf s ticks).csv =
        s.csv.map fun c =>
          { c with rows := c.rows ++
              ticks.map fun t =>
                (t.now - s.startTime, drainSerial t.pending) }) ∧
      (runTicks hf vf s ticks).recording = true ∧
      (runTicks hf vf s ticks).startTime = s.startTime := by
  induction ticks with
  | nil =>
    intro s hrec
    refine ⟨?_, ?_, hrec, rfl⟩
    · cases hw : s.writer <;> simp [runTicks, hw]
    · cases hc : s.csv <;> simp [runTicks, hc]
  | cons t ts ih =>
    intro s hrec
    obtain ⟨hw, hc, hrec2, hst, hfh, hfv⟩ :=
      readFrame_recording_projections hf vf s t.now t.pending t.frame hrec
    obtain ⟨iw, ic, irec, ist⟩ :=
      ih ((readFrame hf vf s t.now t.pending (some t.frame)).1) hrec2
    have hflip : ∀ x,
        applyFlips ((readFrame hf vf s t.now t.pending (some t.frame)).1)
          hf vf x = applyFlips s hf vf x :=
      fun x => applyFlips_congr hf vf x hfh hfv
    have hrun : runTicks hf vf s (t :: ts) =
        runTicks hf vf ((readFrame hf vf s t.now t.pending (some t.frame)).1)
          ts := rfl
    rw [hrun]
    refine ⟨?_, ?_, irec, by rw [ist, hst]⟩
    · rw [iw, hw, Option.map_map]
      cases s.writer with
      | none => rfl
      | some w => simp [Function.comp, hflip]
    · rw [ic, hc, Option.map_map]
      cases s.csv with
      | none => rfl
      | some c => simp [Function.comp, hst, hfh, hfv]

/-! ## Claim theorems -/

/-- C6: for every telemetry line whose semicolon-split yields a number of
fields different from 3, `parse_arduino_status` returns no status (`None`);
the parser is a total function of the input string, so it never raises. -/
theorem parse_malformed_line_yields_no_status (line : String)
    (h : (splitStripSemi line).length ≠ 3) :
    parseArduinoStatus line = none := by
  rcases hp : splitStripSemi line with _ | ⟨a, _ | ⟨b, _ | ⟨c, _ | ⟨d, rest⟩⟩⟩⟩ <;>
    simp [parseArduinoStatus, hp] at h ⊢

/-- Witness for C6 at the empty line (Python `"".split(";") == [""]`). -/
theorem parse_malformed_line_yields_no_status_witness :
    (splitStripSemi "").length ≠ 3 ∧ parseArduinoStatus "" = none :=
  ⟨by decide, parse_malformed_line_yields_no_status "" (by decide)⟩

/-- C7: for every telemetry line with exactly 3 semicolon-delimited fields,
the brake state is `"locked"` for trimmed first field `"0"`, `"unlocked"` for
`"1"`, and the trimmed first field itself otherwise, and the trimmed second
and third fields are returned as wheel-position and mode. -/
theorem parse_three_field_line_decodes_brake (line b w m : String)
    (h : splitStripSemi line = [b, w, m]) :
    parseArduinoStatus line =
      some (if b = "0" then "locked" else if b = "1" then "unlocked" else b,
            w, m) := by
  simp [parseArduinoStatus, h]

/-- Witness for C7 on the line `"0; pos ;run"`. -/
theorem parse_three_field_line_decodes_brake_witness :
    splitStripSemi "0; pos ;run" = ["0", "pos", "run"] ∧
    parseArduinoStatus "0; pos ;run" = some ("locked", "pos", "run") :=
  ⟨by decide, by
    simpa using
      parse_three_field_line_decodes_brake "0; pos ;run" "0" "pos" "run"
        (by decide)⟩

/-- C3: for every lock state in {automatic, locked, unlocked}, dispatch finds
the mapped command byte (`a`/`b`/`c`); if any of the 3 attempts succeeds the
byte is written on the first succeeding attempt (within 3), otherwise the
loop logs abandonment after exactly 3 failed attempts, each failure logging
one warning and sleeping one 0.1 s backoff; the loop is total, so failure
never raises to the caller. -/
theorem send_lock_state_bounded_retry (lockState : String) (c : Char)
    (ok : Nat → Bool)
    (hmap : (lockState, c) ∈
      [("automatic", 'a'), ("locked", 'b'), ("unlocked", 'c')]) :
    sendLockState lockState ok = some (c, sendGo ok 1 3) ∧
    ((ok 1 = true ∨ ok 2 = true ∨ ok 3 = true) →
      ∃ i, 1 ≤ i ∧ i ≤ 3 ∧ ok i = true ∧
        (sendGo ok 1 3).sentOnAttempt = some i ∧
        (sendGo ok 1 3).gaveUp = false) ∧
    ((ok 1 = false ∧ ok 2 = false ∧ ok 3 = false) →
      sendGo ok 1 3 =
        { sentOnAttempt := none, failWarnings := 3, backoffs := 3,
          gaveUp := true }) ∧
    backoffSeconds = 1 / 10 := by
  have hcmd : commandMap lockState = some c := by
    simp only [List.mem_cons, List.not_mem_nil, or_false, Prod.mk.injEq]
      at hmap
    rcases hmap with ⟨h1, h2⟩ | ⟨h1, h2⟩ | ⟨h1, h2⟩ <;> subst h1 <;>
      subst h2 <;> rfl
  refine ⟨by simp [sendLockState, hcmd], ?_, ?_, rfl⟩
  · intro hok
    by_cases h1 : ok 1 = true
    · exact ⟨1, le_refl 1, by omega, h1, by simp [sendGo, h1], by simp [sendGo, h1]⟩
    · by_cases h2 : ok 2 = true
      · refine ⟨2, by omega, by omega, h2, ?_, ?_⟩ <;>
          simp [sendGo, Bool.eq_false_iff.mpr h1, h1, h2]
      · have h3 : ok 3 = true := by
          rcases hok with h | h | h
          · exact absurd h h1
          · exact absurd h h2
          · exact h
        refine ⟨3, by omega, by omega, h3, ?_, ?_⟩ <;>
          simp [sendGo, h1, h2, h3]
  · rintro ⟨h1, h2, h3⟩
    simp [sendGo, h1, h2, h3]

/-- Witness for C3: state `"locked"` with every attempt failing. -/
theorem send_lock_state_bounded_retry_witness :
    sendLockState "locked" (fun _ => false) =
      some ('b', sendGo (fun _ => false) 1 3) ∧
    sendGo (fun _ => false) 1 3 =
      { sentOnAttempt := none, failWarnings := 3, backoffs := 3,
        gaveUp := true } := by
  have h := send_lock_state_bounded_retry "locked" 'b' (fun _ => false)
    (by simp)
  exact ⟨h.1, h.2.2.1 ⟨rfl, rfl, rfl⟩⟩

/-- C10: `lock_state` starts as `"automatic"` and, however many times
`toggle_lock_state` runs, stays in {automatic, unlocked, locked}; on every
such state `command_map` yields a byte, so the silent no-command return of
`send_lock_state` is unreachable along toggles. -/
theorem lock_state_always_mapped :
    (initState Unit false false).lockState = "automatic" ∧
    ∀ n : Nat,
      (toggleLockState^[n] "automatic" = "automatic" ∨
       toggleLockState^[n] "automatic" = "unlocked" ∨
       toggleLockState^[n] "automatic" = "locked") ∧
      (commandMap (toggleLockState^[n] "automatic")).isSome = true ∧
      (sendLockState (toggleLockState^[n] "automatic")
        (fun _ => true)).isSome = true := by
  refine ⟨rfl, fun n => ?_⟩
  have hmem : toggleLockState^[n] "automatic" = "automatic" ∨
      toggleLockState^[n] "automatic" = "unlocked" ∨
      toggleLockState^[n] "automatic" = "locked" := by
    induction n with
    | zero => left; rfl
    | succ n ih =>
      rw [Function.iterate_succ_apply']
      rcases ih with h | h | h <;> rw [h] <;> simp [toggleLockState]
  refine ⟨hmem, ?_, ?_⟩ <;>
    rcases hmem with h | h | h <;>
      simp [h, commandMap, sendLockState]

/-- C9: `stop_recording` is idempotent — a second call leaves the state
identical to the first, stopping leaves no open sink, and stopping a setup
that never started recording is a no-op (no error: the operation is total). -/
theorem stop_recording_idempotent (F : Type) (fh fv : Bool)
    (s : CamState F) :
    stopRecording (stopRecording s) = stopRecording s ∧
    hasOpenSink (stopRecording s) = false ∧
    stopRecording (initState F fh fv) = initState F fh fv := by
  obtain ⟨a1, a2, rec, st, w, c, e, mi, sd, ei, ls, lst, la⟩ := s
  refine ⟨?_, ?_, rfl⟩ <;> cases w <;> cases c <;> rfl

/-- C5: any filesystem failure during experiment-identity allocation degrades
to the locally-synthesized fallback identifier `{date}_01_{subject}` (with
subject defaulting to `"unknown"`), yields no remote directory, and logs the
fallback as a warning. -/
theorem allocation_failure_falls_back_locally
    (rootDir today mouseId e : String) (appendOutcome : Except String Unit) :
    (generateAndRegisterExp rootDir today mouseId (.error e)
        appendOutcome).1 =
      today ++ "_01_" ++ safeMouseId mouseId ∧
    (generateAndRegisterExp rootDir today mouseId (.error e)
        appendOutcome).2.1 = none ∧
    ("WARNING", "Failed to create remote expID directory: " ++ e) ∈
      (generateAndRegisterExp rootDir today mouseId (.error e)
        appendOutcome).2.2 := by
  refine ⟨rfl, rfl, ?_⟩
  simp [generateAndRegisterExp]

/-- C2 counterexample: an append in which the video write succeeds and the
event-row write then fails leaves the frame in the video sink with no
corresponding event row — refuting "either both writes occur or neither
does". -/
theorem append_not_atomic_counterexample :
    appendRaised
      (pipelineAppend (startRecording (initState Nat false false) "m1" 1 0)
        5 1 "" true false) = true ∧
    (appendResultState
      (pipelineAppend (startRecording (initState Nat false false) "m1" 1 0)
        5 1 "" true false)).writer =
      some { frames := [5], isOpen := true } ∧
    (appendResultState
      (pipelineAppend (startRecording (initState Nat false false) "m1" 1 0)
        5 1 "" true false)).csv =
      some { headerRow := ["timestamp", "arduino_data"], rows := [],
             isOpen := true } :=
  ⟨rfl, rfl, rfl⟩

/-- C2 amended: the video write precedes the event-row write, so if the video
write fails neither sink is written; if both writes succeed both sinks are
written; but if the video write succeeds and the event-row write fails, the
frame is appended without a matching row. -/
theorem append_video_write_precedes_event_row (F : Type) (s : CamState F)
    (f : F) (ts : ℚ) (d : String) (csvOk : Bool) :
    pipelineAppend s f ts d false csvOk = .error s ∧
    pipelineAppend s f ts d true true =
      .ok { s with
        writer := s.writer.map fun w =>
          { w with frames := w.frames ++ [f] }
        csv := s.csv.map fun c => { c with rows := c.rows ++ [(ts, d)] }
        elapsedTime := pyInt ts } ∧
    pipelineAppend s f ts d true false =
      .error { s with
        writer := s.writer.map fun w =>
          { w with frames := w.frames ++ [f] } } :=
  ⟨rfl, rfl, rfl⟩

/-- C1: `start_recording` followed by N `read_frame` calls that each yield a
frame appends exactly N frames to the video sink and exactly N rows to the
event sink, both images of the same tick list (hence in matching order), and
when the wall clock is non-decreasing across the calls the elapsed-seconds
timestamps of the rows are monotonically non-decreasing. -/
theorem recording_appends_frames_and_rows_in_order (F : Type)
    (hf vf : F → F) (s0 : CamState F) (mouseId : String) (dur : ℤ) (t0 : ℚ)
    (ticks : List (Tick F))
    (hmono : List.Chain' (· ≤ ·) (ticks.map Tick.now)) :
    ∃ w c,
      (runTicks hf vf (startRecording s0 mouseId dur t0) ticks).writer =
        some w ∧
      (runTicks hf vf (startRecording s0 mouseId dur t0) ticks).csv =
        some c ∧
      w.frames = ticks.map (fun t =>
        applyFlips (startRecording s0 mouseId dur t0) hf vf t.frame) ∧
      c.rows = ticks.map (fun t => (t.now - t0, drainSerial t.pending)) ∧
      w.frames.length = ticks.length ∧
      c.rows.length = ticks.length ∧
      List.Chain' (· ≤ ·) (c.rows.map Prod.fst) := by
  obtain ⟨hw, hc, -, -⟩ :=
    runTicks_sinks hf vf ticks (startRecording s0 mouseId dur t0) rfl
  refine ⟨{ frames := ticks.map fun t =>
              applyFlips (startRecording s0 mouseId dur t0) hf vf t.frame,
            isOpen := true },
          { headerRow := ["timestamp", "arduino_data"],
            rows := ticks.map fun t => (t.now - t0, drainSerial t.pending),
            isOpen := true },
          ?_, ?_, rfl, rfl, by simp, by simp, ?_⟩
  · rw [hw]; rfl
  · rw [hc]; rfl
  · show List.Chain' (· ≤ ·)
      ((ticks.map fun t => ((t.now - t0 : ℚ), drainSerial t.pending)).map
        Prod.fst)
    rw [List.map_map, List.chain'_map]
    rw [List.chain'_map] at hmono
    exact hmono.imp fun a b h => sub_le_sub_right h t0

/-- Witness for C1: two ticks at the same instant on a fresh setup. -/
theorem recording_appends_frames_and_rows_in_order_witness :
    List.Chain' (· ≤ ·)
      (([⟨1, ["5;5;5"], 7⟩, ⟨1, [], 8⟩] : List (Tick Nat)).map Tick.now) ∧
    ∃ w c,
      (runTicks id id (startRecording (initState Nat false false) "m1" 1 0)
        [⟨1, ["5;5;5"], 7⟩, ⟨1, [], 8⟩]).writer = some w ∧
      (runTicks id id (startRecording (initState Nat false false) "m1" 1 0)
        [⟨1, ["5;5;5"], 7⟩, ⟨1, [], 8⟩]).csv = some c ∧
      w.frames = ([⟨1, ["5;5;5"], 7⟩, ⟨1, [], 8⟩] : List (Tick Nat)).map
        (fun t => applyFlips (startRecording (initState Nat false false)
          "m1" 1 0) id id t.frame) ∧
      c.rows = ([⟨1, ["5;5;5"], 7⟩, ⟨1, [], 8⟩] : List (Tick Nat)).map
        (fun t => (t.now - 0, drainSerial t.pending)) ∧
      w.frames.length = 2 ∧ c.rows.length = 2 ∧
      List.Chain' (· ≤ ·) (c.rows.map Prod.fst) := by
  have hmono : List.Chain' (· ≤ ·)
      (([⟨1, ["5;5;5"], 7⟩, ⟨1, [], 8⟩] : List (Tick Nat)).map Tick.now) := by
    simp
  exact ⟨hmono,
    recording_appends_frames_and_rows_in_order Nat id id
      (initState Nat false false) "m1" 1 0 [⟨1, ["5;5;5"], 7⟩, ⟨1, [], 8⟩]
      hmono⟩

/-- C4 counterexample trace, state after call 2: record a frame at instant 1
with nothing pending, then a frameless tick at instant 2 during which the
line `"7;8;9"` is drained. -/
def c4TraceState2 : CamState Nat :=
  (readFrame id id
    (readFrame id id (startRecording (initState Nat false false) "m1" 1 0)
      1 [] (some 7)).1
    2 ["7;8;9"] none).1

/-- C4 counterexample trace, state after call 3: record a second frame at
instant 3 with nothing pending. -/
def c4TraceState3 : CamState Nat :=
  (readFrame id id c4TraceState2 3 [] (some 8)).1

/-- C4 counterexample: on this trace a telemetry line (`"7;8;9"`) is seen
between the first and second recorded frames — it even becomes
`last_arduino_line` — yet the second row's `arduino_data` is empty, because
each call resets its local drain result and lines drained by non-recording
calls are never carried forward.  This refutes "the `arduino_data` field of
its event-sink row is the last telemetry line seen since the previous
recorded frame, or empty if none was seen". -/
theorem event_row_not_last_line_since_previous_frame :
    c4TraceState2.lastArduinoLine = "7;8;9" ∧
    c4TraceState2.csv.map CsvSink.rows = some [(1 - 0, "")] ∧
    c4TraceState3.csv.map CsvSink.rows =
      some [(1 - 0, ""), (3 - 0, "")] :=
  ⟨rfl, rfl, rfl⟩

/-- C4 amended: the header row is exactly `timestamp,arduino_data`, and the
`arduino_data` field of each recorded row is the stripped last telemetry
line drained during that same `read_frame` call, or empty if none was
pending during that call (lines drained by intervening calls that record no
frame are not carried forward). -/
theorem event_row_data_is_last_drained_this_call (F : Type) (hf vf : F → F)
    (s : CamState F) (m : String) (dur : ℤ) (t0 now : ℚ)
    (pending : List String) (f : F) (hrec : s.recording = true) :
    ((startRecording s m dur t0).csv.map CsvSink.headerRow) =
      some ["timestamp", "arduino_data"] ∧
    ((readFrame hf vf s now pending (some f)).1.csv =
      s.csv.map fun c =>
        { c with rows :=
            c.rows ++ [(now - s.startTime, drainSerial pending)] }) ∧
    drainSerial pending = ((pending.getLast?).map pyStripStr).getD "" :=
  ⟨rfl, (readFrame_recording_projections hf vf s now pending f hrec).2.1,
    drainSerial_eq_getLast pending⟩

/-- Witness for the amended C4 on a just-started setup draining `"7;8;9"`. -/
theorem event_row_data_is_last_drained_this_call_witness :
    (startRecording (initState Nat false false) "m1" 1 0).recording =
      true ∧
    ((startRecording (startRecording (initState Nat false false) "m1" 1 0)
        "m1" 1 0).csv.map CsvSink.headerRow) =
      some ["timestamp", "arduino_data"] ∧
    ((readFrame id id (startRecording (initState Nat false false) "m1" 1 0)
        1 ["7;8;9"] (some 5)).1.csv =
      (startRecording (initState Nat false false) "m1" 1 0).csv.map
        fun c =>
          { c with rows := c.rows ++
              [(1 - (startRecording (initState Nat false false) "m1" 1
                  0).startTime,
                drainSerial ["7;8;9"])] }) ∧
    drainSerial ["7;8;9"] =
      (((["7;8;9"] : List String).getLast?).map pyStripStr).getD "" :=
  ⟨rfl,
    event_row_data_is_last_drained_this_call Nat id id
      (startRecording (initState Nat false false) "m1" 1 0) "m1" 1 0 1
      ["7;8;9"] 5 rfl⟩

/-! ### C8 machinery -/

lemma string_data_append (a b : String) : (a ++ b).data = a.data ++ b.data := by
  cases a; cases b; rfl

/-- Candidate directories for different sequence formats are different. -/
lemma candidateDir_ne (date subj : String) {n m : Nat}
    (hpad : pad2 n ≠ pad2 m) :
    candidateDir date n subj ≠ candidateDir date m subj := by
  intro h
  apply hpad
  unfold candidateDir expIdName at h
  have hd := congrArg String.data h
  simp only [string_data_append, List.append_assoc] at hd
  have hd1 := List.append_cancel_left hd
  have hd2 := List.append_cancel_left hd1
  have hd3 := List.append_cancel_left hd2
  have hd4 := List.append_cancel_left hd3
  have hd5 : (pad2 n).data = (pad2 m).data :=
    List.append_cancel_right hd4
  exact congrArg String.mk hd5

/-- Characterization of the probe loop: a successful probe starting at `n0`
returns the smallest free sequence number at or above `n0`, creating exactly
its directory. -/
lemma createExpIdAux_spec (fs : List String) (date subj : String) :
    ∀ (fuel n0 : Nat) (id dir : String) (fs' : List String),
      createExpIdAux fs date subj n0 fuel = some (id, dir, fs') →
      ∃ n, n0 ≤ n ∧ id = expIdName date n subj ∧
        dir = candidateDir date n subj ∧
        candidateDir date n subj ∉ fs ∧
        (∀ m, n0 ≤ m → m < n → candidateDir date m subj ∈ fs) ∧
        fs' = fs ++ [dir] := by
  intro fuel
  induction fuel with
  | zero => intro n0 id dir fs' h; simp [createExpIdAux] at h
  | succ fuel ih =>
    intro n0 id dir fs' h
    by_cases hmem : candidateDir date n0 subj ∈ fs
    · rw [createExpIdAux, if_pos hmem] at h
      obtain ⟨n, hn0, hid, hdir, hfree, hprev, hfs⟩ :=
        ih (n0 + 1) id dir fs' h
      refine ⟨n, by omega, hid, hdir, hfree, ?_, hfs⟩
      intro m hm1 hm2
      rcases eq_or_lt_of_le hm1 with rfl | hlt
      · exact hmem
      · exact hprev m (by omega) hm2
    · rw [createExpIdAux, if_neg hmem] at h
      simp only [Option.some.injEq, Prod.mk.injEq] at h
      obtain ⟨h1, h2, h3⟩ := h
      subst h1; subst h2; subst h3
      exact ⟨n0, le_refl n0, rfl, rfl, hmem,
        fun m hm1 hm2 => absurd hm2 (Nat.not_lt.mpr hm1), rfl⟩

/-- C8: whenever allocation returns, it has claimed the first sequence number
from 1 up whose zero-padded candidate directory `{date}_{seq}_{subject}` did
not yet exist, created exactly that directory, and returned the identifier
and path (which then exists); on a fresh root for subject `"m1"` the
identifier is `{date}_01_m1`, a second same-day allocation yields
`{date}_02_m1`, and the returned directory exists after each call. -/
theorem exp_id_allocation_claims_first_free :
    (∀ (fs : List String) (date mouseId id dir : String)
        (fs' : List String),
      createExpId fs date mouseId = some (id, dir, fs') →
      ∃ n, 1 ≤ n ∧ id = expIdName date n (safeMouseId mouseId) ∧
        dir = candidateDir date n (safeMouseId mouseId) ∧
        candidateDir date n (safeMouseId mouseId) ∉ fs ∧
        (∀ m, 1 ≤ m → m < n →
          candidateDir date m (safeMouseId mouseId) ∈ fs) ∧
        fs' = fs ++ [dir] ∧ dir ∈ fs') ∧
    (∀ date : String,
      createExpId [] date "m1" =
        some (expIdName date 1 "m1", candidateDir date 1 "m1",
          [candidateDir date 1 "m1"]) ∧
      expIdName date 1 "m1" = date ++ "_01_m1" ∧
      candidateDir date 1 "m1" ∈ [candidateDir date 1 "m1"] ∧
      createExpId [candidateDir date 1 "m1"] date "m1" =
        some (expIdName date 2 "m1", candidateDir date 2 "m1",
          [candidateDir date 1 "m1", candidateDir date 2 "m1"]) ∧
      expIdName date 2 "m1" = date ++ "_02_m1" ∧
      candidateDir date 2 "m1" ∈
        [candidateDir date 1 "m1", candidateDir date 2 "m1"]) := by
  constructor
  · intro fs date mouseId id dir fs' h
    obtain ⟨n, hn, hid, hdir, hfree, hprev, hfs⟩ :=
      createExpIdAux_spec fs date (safeMouseId mouseId) (fs.length + 1) 1
        id dir fs' h
    exact ⟨n, hn, hid, hdir, hfree, hprev, hfs, by
      rw [hfs]; exact List.mem_append_right fs (List.mem_singleton.mpr rfl)⟩
  · intro date
    have hne : candidateDir date 2 "m1" ≠ candidateDir date 1 "m1" :=
      candidateDir_ne date "m1" (by decide)
    refine ⟨?_, ?_, List.mem_singleton.mpr rfl, ?_, ?_,
      List.mem_cons_of_mem _ (List.mem_singleton.mpr rfl)⟩
    · simp [createExpId, createExpIdAux, safeMouseId]
    · unfold expIdName
      rw [show pad2 1 = "01" from by decide]
      simp only [string_append_assoc]
      exact congrArg (fun x => date ++ x) (by decide)
    · simp [createExpId, createExpIdAux, safeMouseId, hne]
    · unfold expIdName
      rw [show pad2 2 = "02" from by decide]
      simp only [string_append_assoc]
      exact congrArg (fun x => date ++ x) (by decide)

/-- Witness for C8: a first allocation for `"m1"` on the fresh root, at a
concrete date. -/
theorem exp_id_allocation_claims_first_free_witness :
    createExpId [] "2025-01-02" "m1" =
      some ("2025-01-02_01_m1", "m1/2025-01-02_01_m1",
        ["m1/2025-01-02_01_m1"]) ∧
    ∃ n, 1 ≤ n ∧
      "2025-01-02_01_m1" = expIdName "2025-01-02" n (safeMouseId "m1") ∧
      "m1/2025-01-02_01_m1" = candidateDir "2025-01-02" n
        (safeMouseId "m1") ∧
      candidateDir "2025-01-02" n (safeMouseId "m1") ∉ ([] : List String) ∧
      (∀ m, 1 ≤ m → m < n →
        candidateDir "2025-01-02" m (safeMouseId "m1") ∈
          ([] : List String)) ∧
      (["m1/2025-01-02_01_m1"] : List String) =
        [] ++ ["m1/2025-01-02_01_m1"] ∧
      "m1/2025-01-02_01_m1" ∈ (["m1/2025-01-02_01_m1"] : List String) :=
  ⟨by decide,
    exp_id_allocation_claims_first_free.1 [] "2025-01-02" "m1"
      "2025-01-02_01_m1" "m1/2025-01-02_01_m1" ["m1/2025-01-02_01_m1"]
      (by decide)⟩

end SleepTracker
